import Mathlib

/-!
Shallow embedding of the async-operation subsystem of the ctapi-rs repository
(src/ctapi-rs/src/async_ops.rs, src/ctapi-rs/src/client.rs,
src/ctapi-rs/src/list.rs, src/ctapi-rs/src/error.rs).

Native FFI calls (ctCicode, ctListRead, ctListWrite, ctGetOverlappedResult,
CreateEventA) are modelled by their observable outcome: success, or failure
together with the OS error code read through last_os_error.  Byte buffers are
lists of byte values (Nat, each < 256 in intended use); raw handles and
addresses are Nat, with 0 standing for the null handle/pointer.
-/

namespace CtApi

/-- Error type mirroring CtApiError in src/ctapi-rs/src/error.rs.  Payloads
that carry no information relevant to the claims (io::Error texts and so on)
are reduced to the OS error code or the message string the code builds. -/
inductive CtApiError where
  | System (osCode : Nat)
  | Encoding
  | FromBytesUntilNul
  | NullPointer
  | TagNotFound (tag : String)
  | ConnectionFailed (message : String)
  | InvalidParameter (param : String) (value : String)
  | Timeout
  | UnsupportedOperation (operation : String)
  | Other (code : Nat) (message : String)
deriving Repr, DecidableEq

/-- True exactly on the InvalidParameter constructor of CtApiError. -/
def CtApiError.isInvalidParameter : CtApiError → Bool
  | .InvalidParameter _ _ => true
  | _ => false

/-- Errors produced by list.rs, which uses anyhow::Result: either an io::Error
wrapping an OS code, an anyhow message for a missing tag, or the NulError from
CString::new. -/
inductive ListError where
  | System (osCode : Nat)
  | TagNotFound (tag : String)
  | Nul
deriving Repr, DecidableEq

deriving instance DecidableEq for Except

/-- Outcome of one native FFI call as observed by the wrapper: either the call
returned true, or it returned false and last_os_error carries an OS code. -/
inductive NativeOutcome where
  | ok
  | fail (osError : Nat)
deriving Repr, DecidableEq

/-! ## The GBK codec (encoding_rs::GBK as used by the wrapper)

GBK maps ASCII to single identical bytes and every other representable
character to a two-byte sequence with lead byte 0x81..0xFE.  The embedding is
parameterised by the two-byte table; a well-formed table has distinct
characters, distinct byte pairs, and bytes in the GBK ranges.  Encoding is
lossy on unmappable characters: encoding_rs substitutes the decimal HTML
numeric character reference.  Decoding is lossy as well, substituting U+FFFD
for unmapped sequences, so it never hard-fails. -/

/-- One two-byte GBK table entry: a non-ASCII character with its lead and
trail byte. -/
structure GbkEntry where
  ch : Char
  lead : Nat
  trail : Nat
deriving Repr, DecidableEq

/-- A GBK two-byte table. -/
structure GbkTable where
  entries : List GbkEntry
deriving Repr, DecidableEq

/-- Well-formedness of a GBK table: bytes lie in the GBK lead/trail ranges,
characters are non-ASCII, and both the character column and the byte-pair
column are duplicate-free. -/
def GbkTable.WF (t : GbkTable) : Prop :=
  (∀ e ∈ t.entries,
      0x81 ≤ e.lead ∧ e.lead ≤ 0xFE ∧ 0x40 ≤ e.trail ∧ e.trail ≤ 0xFE ∧
      0x80 ≤ e.ch.toNat) ∧
  (t.entries.map GbkEntry.ch).Nodup ∧
  (t.entries.map (fun e => (e.lead, e.trail))).Nodup

instance (t : GbkTable) : Decidable t.WF := by
  unfold GbkTable.WF; infer_instance

/-- A character is representable in the table's code page: ASCII, or present
in the two-byte table. -/
def GbkRepresentable (t : GbkTable) (c : Char) : Prop :=
  c.toNat < 0x80 ∨ ∃ e ∈ t.entries, e.ch = c

instance (t : GbkTable) (c : Char) : Decidable (GbkRepresentable t c) := by
  unfold GbkRepresentable; infer_instance

/-- ASCII bytes of the decimal digits of n, most significant first (fuelled
recursion on the number of digits). -/
def decimalDigitsAux : Nat → Nat → List Nat
  | 0, _ => []
  | fuel + 1, n =>
    if n < 10 then [48 + n]
    else decimalDigitsAux fuel (n / 10) ++ [48 + n % 10]

/-- ASCII bytes of the decimal representation of n. -/
def decimalDigits (n : Nat) : List Nat := decimalDigitsAux (n + 1) n

/-- ASCII bytes of the decimal numeric character reference that encoding_rs
substitutes for an unmappable character: an ampersand and a hash, the decimal
scalar value, a semicolon. -/
def numericRefBytes (c : Char) : List Nat :=
  38 :: 35 :: (decimalDigits c.toNat ++ [59])

/-- Encode one character to its GBK byte sequence (lossy on unmappables). -/
def gbkEncodeChar (t : GbkTable) (c : Char) : List Nat :=
  if c.toNat < 0x80 then [c.toNat]
  else
    match t.entries.find? (fun e => e.ch == c) with
    | some e => [e.lead, e.trail]
    | none => numericRefBytes c

/-- GBK.encode: encode a whole string (never fails; lossy substitution). -/
def gbkEncode (t : GbkTable) (s : String) : List Nat :=
  (s.data.map (gbkEncodeChar t)).flatten

/-- GBK.decode on a character-list level: ASCII bytes decode to themselves, a
byte ≥ 0x80 starts a two-byte sequence looked up in the table, and unmapped
input decodes to U+FFFD rather than failing. -/
def gbkDecodeAux (t : GbkTable) : List Nat → List Char
  | [] => []
  | b :: rest =>
    if b < 0x80 then Char.ofNat b :: gbkDecodeAux t rest
    else
      match rest with
      | [] => [Char.ofNat 0xFFFD]
      | tb :: rest2 =>
        match t.entries.find? (fun e => e.lead == b && e.trail == tb) with
        | some e => e.ch :: gbkDecodeAux t rest2
        | none => Char.ofNat 0xFFFD :: gbkDecodeAux t rest2

/-- GBK.decode producing a host string. -/
def gbkDecode (t : GbkTable) (bs : List Nat) : String :=
  ⟨gbkDecodeAux t bs⟩

/-- encode_to_gbk_cstring (src/ctapi-rs/src/async_ops.rs:23 and
src/ctapi-rs/src/client.rs:17): GBK-encode, then CString::new, which fails
exactly when the encoded bytes contain an interior terminator byte. -/
def encode_to_gbk_cstring (t : GbkTable) (s : String) : Option (List Nat) :=
  let encoded := gbkEncode t s
  if 0 ∈ encoded then none else some encoded

/-- CString::new on the plain UTF-8 display form of a value (used by
tag_write for the value argument): fails exactly when the string contains an
interior NUL character. -/
def cstringNew (s : String) : Option String :=
  if Char.ofNat 0 ∈ s.data then none else some s

/-- A sample well-formed GBK fragment used for concrete evaluation: the real
GBK assignments for U+554A (0xB0 0xA1) and U+963F (0xB0 0xA2). -/
def gbkSample : GbkTable :=
  ⟨[⟨Char.ofNat 0x554A, 0xB0, 0xA1⟩, ⟨Char.ofNat 0x963F, 0xB0, 0xA2⟩]⟩

example : gbkSample.WF := by decide
example : gbkDecode gbkSample (gbkEncode gbkSample "Hi") = "Hi" := by decide

/-! ## CStr::from_bytes_until_nul -/

/-- CStr::from_bytes_until_nul on a byte slice: the bytes strictly before the
first terminator byte, or none (FromBytesUntilNulError) when the slice holds
no terminator. -/
def bytesUntilNul : List Nat → Option (List Nat)
  | [] => none
  | b :: rest => if b = 0 then some [] else (bytesUntilNul rest).map (b :: ·)

/-! ## AsyncOperation (src/ctapi-rs/src/async_ops.rs)

The OVERLAPPED control block used by async_ops.rs carries the Citect fields
dwStatus, dwLength, pData and hEvent; its definition (and OVERLAPPED::new)
is not part of the sources here. -/

/-- Modelled from the spec: the overlapped control block — "a native
overlapped-I/O control block (status field, byte-count field, optional
completion-event native handle, and a pointer to the associated result
buffer)".  Handles and data pointers are Nat, 0 meaning null. -/
structure Overlapped where
  dwStatus : Nat
  dwLength : Nat
  hEvent : Nat
  pData : Nat
deriving Repr, DecidableEq

/-- Modelled from the spec: OVERLAPPED::new (missing from the sources)
"initializes the overlapped control block to the not-started state" — all
fields zero, no event, null data pointer. -/
def Overlapped.new : Overlapped :=
  { dwStatus := 0, dwLength := 0, hEvent := 0, pData := 0 }

/-- AsyncOperation (async_ops.rs:57): the control block, the owned result
buffer, and the owned completion-event handle.  bufferAddr is the fixed
abstract address of the owned buffer, standing in for buffer.as_mut_ptr(). -/
structure AsyncOperation where
  overlapped : Overlapped
  buffer : List Nat
  bufferAddr : Nat
  event_handle : Nat
deriving Repr, DecidableEq

/-- AsyncOperation::with_buffer_size (async_ops.rs:75): stores whatever
handle CreateEventA returned (eventHandle; 0 models a failed creation — the
code performs no check), allocates a zeroed buffer, and initialises the
control block, binding hEvent and the buffer pointer.  Total: the
constructor has no error path. -/
def with_buffer_size (bufferSize : Nat) (eventHandle : Nat)
    (bufferAddr : Nat) : AsyncOperation :=
  let buffer := List.replicate bufferSize 0
  let overlapped : Overlapped :=
    { Overlapped.new with
        hEvent := eventHandle, dwStatus := 0, dwLength := 0,
        pData := bufferAddr }
  { overlapped := overlapped, buffer := buffer, bufferAddr := bufferAddr,
    event_handle := eventHandle }

/-- AsyncOperation::new (async_ops.rs:67): default 256-byte buffer. -/
def AsyncOperation.new (eventHandle bufferAddr : Nat) : AsyncOperation :=
  with_buffer_size 256 eventHandle bufferAddr

/-- AsyncOperation::is_complete (async_ops.rs:123): dwStatus differs from the
STATUS_PENDING sentinel 0x103. -/
def AsyncOperation.is_complete (op : AsyncOperation) : Bool :=
  op.overlapped.dwStatus != 0x103

/-- AsyncOperation::reset (async_ops.rs:278): a fresh control block with the
preserved event handle, the buffer pointer re-bound, and the buffer contents
zeroed in place (same length). -/
def AsyncOperation.reset (op : AsyncOperation) : AsyncOperation :=
  { op with
      overlapped :=
        { Overlapped.new with
            hEvent := op.event_handle, pData := op.bufferAddr }
      buffer := List.replicate op.buffer.length 0 }

/-- AsyncOperation::get_result (async_ops.rs:154), with the blocking
ctGetOverlappedResult call modelled by its outcome and by the
bytes-transferred count it reports.  On native failure: System error with the
OS code.  On success: take the first min(bytesTransferred, buffer length)
bytes, cut at the first terminator byte (error FromBytesUntilNul when there
is none), GBK-decode. -/
def get_result (t : GbkTable) (op : AsyncOperation)
    (native : NativeOutcome) (bytesTransferred : Nat) :
    Except CtApiError String :=
  match native with
  | .fail code => .error (.System code)
  | .ok =>
    let resultLen := min bytesTransferred op.buffer.length
    match bytesUntilNul (op.buffer.take resultLen) with
    | none => .error .FromBytesUntilNul
    | some bs => .ok (gbkDecode t bs)

/-- AsyncOperation::try_get_result (async_ops.rs:213), the non-blocking
variant: on native success decode exactly as get_result; on failure, swallow
OS code 997 as none (the code's comment reads ERROR_IO_INCOMPLETE) and wrap
every other code in some (System error). -/
def try_get_result (t : GbkTable) (op : AsyncOperation)
    (native : NativeOutcome) (bytesTransferred : Nat) :
    Option (Except CtApiError String) :=
  match native with
  | .ok =>
    let resultLen := min bytesTransferred op.buffer.length
    match bytesUntilNul (op.buffer.take resultLen) with
    | none => some (.error .FromBytesUntilNul)
    | some bs => some (.ok (gbkDecode t bs))
  | .fail code =>
    if code = 997 then none else some (.error (.System code))

/-- AsyncOperation::cancel (async_ops.rs:265): the ctCancelIO outcome,
Ok true on success, System error otherwise. -/
def AsyncOperation.cancel (native : NativeOutcome) : Except CtApiError Bool :=
  match native with
  | .ok => .ok true
  | .fail code => .error (.System code)

/-! ## Async initiators -/

/-- AsyncCtClient::cicode_async (async_ops.rs:355): encode the command (a
failure is reported as InvalidParameter without any native call), then issue
ctCicode; a false return with OS code 997 (ERROR_IO_PENDING) still counts as
success, any other code is propagated as a System error. -/
def cicode_async (t : GbkTable) (cmd : String) (native : NativeOutcome) :
    Except CtApiError Unit :=
  match encode_to_gbk_cstring t cmd with
  | none => .error (.InvalidParameter "cmd" cmd)
  | some _ =>
    match native with
    | .ok => .ok ()
    | .fail code => if code = 997 then .ok () else .error (.System code)

/-- CtList::read_async (list.rs:141): issue ctListRead with the operation's
control block; a false return with OS code 997 still counts as success, any
other code is propagated. -/
def read_async (native : NativeOutcome) : Except ListError Unit :=
  match native with
  | .ok => .ok ()
  | .fail code => if code = 997 then .ok () else .error (.System code)

/-- CtList::write_tag_async (list.rs:231): look the tag up in the list's tag
map (anyhow error when absent), GBK-encode the value through CString::new,
then issue ctListWrite; a false return with OS code 997 still counts as
success, any other code is propagated. -/
def write_tag_async (t : GbkTable) (tagMap : List String)
    (tag value : String) (native : NativeOutcome) : Except ListError Unit :=
  if tag ∈ tagMap then
    match encode_to_gbk_cstring t value with
    | none => .error .Nul
    | some _ =>
      match native with
      | .ok => .ok ()
      | .fail code => if code = 997 then .ok () else .error (.System code)
  else .error (.TagNotFound tag)

/-! ## Synchronous client operations (src/ctapi-rs/src/client.rs) -/

/-- extract_string_from_buffer (client.rs:23): CStr::from_bytes_until_nul on
the whole buffer, then GBK-decode. -/
def extract_string_from_buffer (t : GbkTable) (buffer : List Nat) :
    Except CtApiError String :=
  match bytesUntilNul buffer with
  | none => .error .FromBytesUntilNul
  | some bs => .ok (gbkDecode t bs)

/-- decode_response_buffer (client.rs:37): extract_string_from_buffer, then
reject an empty decoded string with the Other error "API returned empty
response" (code 0). -/
def decode_response_buffer (t : GbkTable) (buffer : List Nat) :
    Except CtApiError String :=
  match extract_string_from_buffer t buffer with
  | .error e => .error e
  | .ok s =>
    if s = "" then .error (.Other 0 "API returned empty response")
    else .ok s

/-- CtClient::tag_read (client.rs:183): GBK-encode the tag name (a failure is
reported as TagNotFound without any native call), issue ctTagRead into a
local buffer (its post-call contents are the buffer argument), propagate a
native failure as a System error, and otherwise decode_response_buffer. -/
def tag_read (t : GbkTable) (tag : String) (native : NativeOutcome)
    (buffer : List Nat) : Except CtApiError String :=
  match encode_to_gbk_cstring t tag with
  | none => .error (.TagNotFound tag)
  | some _ =>
    match native with
    | .fail code => .error (.System code)
    | .ok => decode_response_buffer t buffer

/-- CtClient::tag_read_ex (client.rs:236): identical control flow to
tag_read around ctTagReadEx. -/
def tag_read_ex (t : GbkTable) (tag : String) (native : NativeOutcome)
    (buffer : List Nat) : Except CtApiError String :=
  match encode_to_gbk_cstring t tag with
  | none => .error (.TagNotFound tag)
  | some _ =>
    match native with
    | .fail code => .error (.System code)
    | .ok => decode_response_buffer t buffer

/-- CtClient::tag_write (client.rs:294): GBK-encode the tag name (failure ↦
TagNotFound, no native call), CString::new on the displayed value (failure ↦
NullPointer via the NulError From-impl), then ctTagWrite, yielding Ok true on
success. -/
def tag_write (t : GbkTable) (tag value : String)
    (native : NativeOutcome) : Except CtApiError Bool :=
  match encode_to_gbk_cstring t tag with
  | none => .error (.TagNotFound tag)
  | some _ =>
    match cstringNew value with
    | none => .error .NullPointer
    | some _ =>
      match native with
      | .fail code => .error (.System code)
      | .ok => .ok true

/-- CtClient::cicode, synchronous (client.rs:345): encode the command
(failure ↦ InvalidParameter, no native call), issue ctCicode with a null
overlapped pointer, propagate native failure, decode_response_buffer. -/
def cicode (t : GbkTable) (cmd : String) (native : NativeOutcome)
    (buffer : List Nat) : Except CtApiError String :=
  match encode_to_gbk_cstring t cmd with
  | none => .error (.InvalidParameter "cmd" cmd)
  | some _ =>
    match native with
    | .fail code => .error (.System code)
    | .ok => decode_response_buffer t buffer

/-- Claim-side creation contract, following the spec's words: creation
"fails only if native event creation fails (propagate as a system error)";
on a successful event creation it yields the operation the code builds. -/
def with_buffer_size_claim (bufferSize eventHandle bufferAddr : Nat) :
    Except CtApiError AsyncOperation :=
  if eventHandle = 0 then .error (.System 0)
  else .ok (with_buffer_size bufferSize eventHandle bufferAddr)

/-- The eleven ASCII bytes of the text Hello World. -/
def helloWorldBytes : List Nat :=
  [72, 101, 108, 108, 111, 32, 87, 111, 114, 108, 100]

/-! ## Helper lemmas -/

theorem bytesUntilNul_eq_none {l : List Nat} (h : ∀ b ∈ l, b ≠ 0) :
    bytesUntilNul l = none := by
  induction l with
  | nil => rfl
  | cons b rest ih =>
    have hb : b ≠ 0 := h b (by simp)
    simp [bytesUntilNul, hb, ih (fun x hx => h x (by simp [hx]))]

theorem bytesUntilNul_append {l r : List Nat} (h : ∀ b ∈ l, b ≠ 0) :
    bytesUntilNul (l ++ 0 :: r) = some l := by
  induction l with
  | nil => simp [bytesUntilNul]
  | cons b rest ih =>
    have hb : b ≠ 0 := h b (by simp)
    simp [bytesUntilNul, hb, ih (fun x hx => h x (by simp [hx]))]

theorem bytesUntilNul_eq_takeWhile {l bs : List Nat}
    (h : bytesUntilNul l = some bs) :
    bs = l.takeWhile (fun b => b != 0) := by
  induction l generalizing bs with
  | nil => simp [bytesUntilNul] at h
  | cons b rest ih =>
    by_cases hb : b = 0
    · subst hb
      simp [bytesUntilNul] at h
      simp [List.takeWhile_cons, ← h]
    · simp [bytesUntilNul, hb] at h
      obtain ⟨a, ha, rfl⟩ := h
      simp [List.takeWhile_cons, hb, ih ha]

theorem gbkDecodeAux_ascii (t : GbkTable) {bs : List Nat}
    (h : ∀ b ∈ bs, b < 0x80) :
    gbkDecodeAux t bs = bs.map Char.ofNat := by
  induction bs with
  | nil => rfl
  | cons b rest ih =>
    have hb : b < 0x80 := h b (by simp)
    rw [gbkDecodeAux.eq_def]
    simp [hb, ih (fun x hx => h x (by simp [hx]))]

theorem gbkDecodeAux_encodeChar (t : GbkTable) (hwf : t.WF) {c : Char}
    (hc : GbkRepresentable t c) (tail : List Nat) :
    gbkDecodeAux t (gbkEncodeChar t c ++ tail) = c :: gbkDecodeAux t tail := by
  rcases hc with hascii | ⟨e, he, hech⟩
  · simp only [gbkEncodeChar, hascii, if_true, List.cons_append,
      List.nil_append]
    rw [gbkDecodeAux.eq_def]
    simp [hascii, Char.ofNat_toNat]
  · have hna : ¬ c.toNat < 0x80 := by
      have hb := (hwf.1 e he).2.2.2.2
      rw [hech] at hb
      omega
    obtain ⟨e0, he0⟩ : ∃ e0, t.entries.find? (fun x => x.ch == c) = some e0 := by
      have hsome : (t.entries.find? (fun x => x.ch == c)).isSome := by
        rw [List.find?_isSome]
        exact ⟨e, he, by simp [hech]⟩
      cases hfind : t.entries.find? (fun x => x.ch == c) with
      | none => rw [hfind] at hsome; simp at hsome
      | some e0 => exact ⟨e0, rfl⟩
    have he0mem := List.mem_of_find?_eq_some he0
    have he0ch : e0.ch = c := by
      have hp := List.find?_some he0
      simpa using hp
    have hlead : 0x81 ≤ e0.lead := (hwf.1 e0 he0mem).1
    have hleadna : ¬ e0.lead < 0x80 := by omega
    obtain ⟨e1, he1⟩ : ∃ e1,
        t.entries.find? (fun x => x.lead == e0.lead && x.trail == e0.trail)
          = some e1 := by
      have hsome :
          (t.entries.find?
            (fun x => x.lead == e0.lead && x.trail == e0.trail)).isSome := by
        rw [List.find?_isSome]
        exact ⟨e0, he0mem, by simp⟩
      cases hfind : t.entries.find?
          (fun x => x.lead == e0.lead && x.trail == e0.trail) with
      | none => rw [hfind] at hsome; simp at hsome
      | some e1 => exact ⟨e1, rfl⟩
    have he1mem := List.mem_of_find?_eq_some he1
    have he1p := List.find?_some he1
    have he10 : e1 = e0 := by
      apply List.inj_on_of_nodup_map hwf.2.2 he1mem he0mem
      simp at he1p
      simp [he1p.1, he1p.2]
    simp only [gbkEncodeChar, hna, if_false, he0, List.cons_append,
      List.nil_append]
    rw [gbkDecodeAux.eq_def]
    simp [hleadna, he1, he10, he0ch]

theorem gbkDecodeAux_encode_list (t : GbkTable) (hwf : t.WF)
    {cs : List Char} (h : ∀ c ∈ cs, GbkRepresentable t c) :
    gbkDecodeAux t ((cs.map (gbkEncodeChar t)).flatten) = cs := by
  induction cs with
  | nil => rfl
  | cons c rest ih =>
    simp only [List.map_cons, List.flatten_cons]
    rw [gbkDecodeAux_encodeChar t hwf (h c (by simp))]
    rw [ih (fun x hx => h x (by simp [hx]))]

theorem decimalDigitsAux_pos {fuel n : Nat} :
    ∀ b ∈ decimalDigitsAux fuel n, 48 ≤ b := by
  induction fuel generalizing n with
  | zero => intro b hb; simp [decimalDigitsAux] at hb
  | succ fuel ih =>
    intro b hb
    by_cases hn : n < 10
    · simp [decimalDigitsAux, hn] at hb
      omega
    · simp [decimalDigitsAux, hn] at hb
      rcases hb with hb | hb
      · exact ih b hb
      · omega

theorem gbkEncodeChar_no_nul (t : GbkTable) (hwf : t.WF) {c : Char}
    (hc : c.toNat ≠ 0) : 0 ∉ gbkEncodeChar t c := by
  unfold gbkEncodeChar
  by_cases hascii : c.toNat < 0x80
  · simp [hascii]
    omega
  · simp only [hascii, if_false]
    cases hfind : t.entries.find? (fun x => x.ch == c) with
    | some e =>
      obtain ⟨h1, h2, h3, h4, h5⟩ := hwf.1 e (List.mem_of_find?_eq_some hfind)
      intro hzero
      simp at hzero
      rcases hzero with hz | hz <;> omega
    | none =>
      intro hzero
      simp [numericRefBytes, decimalDigits] at hzero
      have := decimalDigitsAux_pos 0 hzero
      omega

/-- The successful-native branch of get_result, as a definitional equation. -/
theorem get_result_ok_eq (t : GbkTable) (op : AsyncOperation) (n : Nat) :
    get_result t op .ok n =
      match bytesUntilNul (op.buffer.take (min n op.buffer.length)) with
      | none => .error .FromBytesUntilNul
      | some bs => .ok (gbkDecode t bs) := rfl

/-- The successful-native branch of try_get_result, as a definitional
equation. -/
theorem try_get_result_ok_eq (t : GbkTable) (op : AsyncOperation) (n : Nat) :
    try_get_result t op .ok n =
      match bytesUntilNul (op.buffer.take (min n op.buffer.length)) with
      | none => some (.error .FromBytesUntilNul)
      | some bs => some (.ok (gbkDecode t bs)) := rfl

/-- get_result with a full transfer count reads the whole buffer. -/
theorem get_result_ok_full (t : GbkTable) (ov : Overlapped) (buf : List Nat)
    (addr ev : Nat) :
    get_result t ⟨ov, buf, addr, ev⟩ .ok buf.length =
      match bytesUntilNul buf with
      | none => .error .FromBytesUntilNul
      | some bs => .ok (gbkDecode t bs) := by
  rw [get_result_ok_eq]
  simp only [Nat.min_self, List.take_length]

/-- try_get_result with a full transfer count reads the whole buffer. -/
theorem try_get_result_ok_full (t : GbkTable) (ov : Overlapped)
    (buf : List Nat) (addr ev : Nat) :
    try_get_result t ⟨ov, buf, addr, ev⟩ .ok buf.length =
      match bytesUntilNul buf with
      | none => some (.error .FromBytesUntilNul)
      | some bs => some (.ok (gbkDecode t bs)) := by
  rw [try_get_result_ok_eq]
  simp only [Nat.min_self, List.take_length]

/-! ## Claim theorems -/

/-- C1: every asynchronous initiator — cicode_async on a client, read_async
and write_tag_async on a list — returns Ok when the native call succeeds,
returns Ok when the native call fails with the operation-pending sentinel
code 997, and propagates any other failure code as an error. -/
theorem initiators_swallow_pending_sentinel (t : GbkTable)
    (cmd tag value : String) (tagMap : List String) (code : Nat)
    (hcmd : encode_to_gbk_cstring t cmd ≠ none)
    (hval : encode_to_gbk_cstring t value ≠ none)
    (htag : tag ∈ tagMap) (hcode : code ≠ 997) :
    cicode_async t cmd .ok = .ok () ∧
    cicode_async t cmd (.fail 997) = .ok () ∧
    cicode_async t cmd (.fail code) = .error (.System code) ∧
    read_async .ok = .ok () ∧
    read_async (.fail 997) = .ok () ∧
    read_async (.fail code) = .error (.System code) ∧
    write_tag_async t tagMap tag value .ok = .ok () ∧
    write_tag_async t tagMap tag value (.fail 997) = .ok () ∧
    write_tag_async t tagMap tag value (.fail code)
      = .error (.System code) := by
  obtain ⟨e, he⟩ : ∃ e, encode_to_gbk_cstring t cmd = some e :=
    Option.ne_none_iff_exists'.mp hcmd
  obtain ⟨v, hv⟩ : ∃ v, encode_to_gbk_cstring t value = some v :=
    Option.ne_none_iff_exists'.mp hval
  refine ⟨?_, ?_, ?_, ?_, ?_, ?_, ?_, ?_, ?_⟩ <;>
    simp [cicode_async, read_async, write_tag_async, he, hv, htag, hcode]

/-- C1 witness: the three initiators at concrete inputs, with the pending
sentinel swallowed and the distinct code 5 propagated. -/
theorem initiators_swallow_pending_sentinel_witness :
    cicode_async gbkSample "Time(1)" .ok = .ok () ∧
    cicode_async gbkSample "Time(1)" (.fail 997) = .ok () ∧
    cicode_async gbkSample "Time(1)" (.fail 5) = .error (.System 5) ∧
    read_async .ok = .ok () ∧
    read_async (.fail 997) = .ok () ∧
    read_async (.fail 5) = .error (.System 5) ∧
    write_tag_async gbkSample ["Tag1"] "Tag1" "42" .ok = .ok () ∧
    write_tag_async gbkSample ["Tag1"] "Tag1" "42" (.fail 997) = .ok () ∧
    write_tag_async gbkSample ["Tag1"] "Tag1" "42" (.fail 5)
      = .error (.System 5) :=
  initiators_swallow_pending_sentinel gbkSample "Time(1)" "Tag1" "42"
    ["Tag1"] 5 (by decide) (by decide) (by decide) (by decide)

/-- C2: the non-blocking poll try_get_result swallows (returns none for) the
OS failure code 997 — numerically ERROR_IO_PENDING, the very sentinel the
initiators use — although its comment names ERROR_IO_INCOMPLETE, whose value
is 996.  A native failure with the genuine incomplete sentinel 996 is
therefore wrapped as a hard System error instead of yielding none, and a
failure with 997 yields none: the code contradicts its own comment and the
documented sentinel semantics. -/
theorem try_get_result_incomplete_sentinel_bug :
    try_get_result gbkSample ⟨Overlapped.new, List.replicate 256 0, 0, 0⟩
        (.fail 996) 0 = some (.error (.System 996)) ∧
    try_get_result gbkSample ⟨Overlapped.new, List.replicate 256 0, 0, 0⟩
        (.fail 997) 0 = none := by
  exact ⟨rfl, rfl⟩

/-- C3: whenever the blocking wait get_result succeeds with text r, given a
bytes-transferred count n and buffer length L, r is exactly the GBK decoding
of the first min(n, L) buffer bytes truncated at the first terminator byte;
and a buffer holding the bytes of Hello World, a terminator, and arbitrary
trailing bytes decodes to exactly Hello World. -/
theorem get_result_success_decodes_filled_region (t : GbkTable)
    (op : AsyncOperation) (n : Nat) (r : String) (trailing : List Nat)
    (h : get_result t op .ok n = .ok r) :
    r = gbkDecode t
        ((op.buffer.take (min n op.buffer.length)).takeWhile
          (fun b => b != 0)) ∧
    get_result t ⟨Overlapped.new, helloWorldBytes ++ 0 :: trailing, 0, 0⟩
        .ok (helloWorldBytes ++ 0 :: trailing).length
      = .ok "Hello World" := by
  constructor
  · rw [get_result_ok_eq] at h
    cases hbu : bytesUntilNul (op.buffer.take (min n op.buffer.length)) with
    | none => rw [hbu] at h; simp at h
    | some bs =>
      rw [hbu] at h
      simp only [Except.ok.injEq] at h
      rw [← h, ← bytesUntilNul_eq_takeWhile hbu]
  · have hnz : ∀ b ∈ helloWorldBytes, b ≠ 0 := by decide
    have hascii : ∀ b ∈ helloWorldBytes, b < 0x80 := by decide
    rw [get_result_ok_full, bytesUntilNul_append hnz]
    show Except.ok (gbkDecode t helloWorldBytes) = _
    simp only [gbkDecode, gbkDecodeAux_ascii t hascii]
    decide

/-- C3 witness: a concrete successful wait over a buffer holding the bytes
of Hi, a terminator, and trailing garbage. -/
theorem get_result_success_decodes_filled_region_witness :
    "Hi" = gbkDecode gbkSample
        ((([72, 105, 0, 42] : List Nat).take
            (min 4 ([72, 105, 0, 42] : List Nat).length)).takeWhile
          (fun b => b != 0)) ∧
    get_result gbkSample
        ⟨Overlapped.new, helloWorldBytes ++ 0 :: [7, 7], 0, 0⟩
        .ok (helloWorldBytes ++ 0 :: [7, 7]).length
      = .ok "Hello World" :=
  get_result_success_decodes_filled_region gbkSample
    ⟨Overlapped.new, [72, 105, 0, 42], 0, 0⟩ 4 "Hi" [7, 7] (by decide)

/-- C4: when no terminator byte occurs within the declared transferred-byte
count (capped to the buffer length), both the blocking wait and the completed
branch of the non-blocking poll return the from-bytes-until-nul decoding
error — neither a success nor a System error. -/
theorem missing_terminator_yields_decoding_error (t : GbkTable)
    (op : AsyncOperation) (n : Nat)
    (h : ∀ b ∈ op.buffer.take (min n op.buffer.length), b ≠ 0) :
    get_result t op .ok n = .error .FromBytesUntilNul ∧
    try_get_result t op .ok n = some (.error .FromBytesUntilNul) := by
  have hbu := bytesUntilNul_eq_none h
  constructor
  · rw [get_result_ok_eq, hbu]
  · rw [try_get_result_ok_eq, hbu]

/-- C4 witness: a two-byte buffer without terminator, fully transferred. -/
theorem missing_terminator_yields_decoding_error_witness :
    get_result gbkSample ⟨Overlapped.new, [72, 105], 0, 0⟩ .ok 2
        = .error .FromBytesUntilNul ∧
    try_get_result gbkSample ⟨Overlapped.new, [72, 105], 0, 0⟩ .ok 2
        = some (.error .FromBytesUntilNul) :=
  missing_terminator_yields_decoding_error gbkSample
    ⟨Overlapped.new, [72, 105], 0, 0⟩ 2 (by decide)

set_option maxRecDepth 4096 in
/-- C5 counterexample: an all-zero 256-byte buffer with a successful native
wait but zero bytes transferred makes get_result return the decoding error,
not Ok of the empty string — the filled region min(0, 256) is empty and
holds no terminator. -/
theorem get_result_allzero_zero_transferred_errs :
    get_result gbkSample ⟨Overlapped.new, List.replicate 256 0, 0, 0⟩ .ok 0
      = .error .FromBytesUntilNul := by
  rw [get_result_ok_eq]
  decide

/-- C5 (amended): provided the filled region min(bytes transferred, buffer
length) holds at least one byte, successful retrieval over an all-zero
buffer decodes to Ok of the empty string, in get_result and in the completed
branch of try_get_result alike; with an empty filled region the retrieval
returns the from-bytes-until-nul decoding error instead. -/
theorem allzero_buffer_decodes_empty (t : GbkTable) (op : AsyncOperation)
    (n : Nat) (hb : ∀ b ∈ op.buffer, b = 0)
    (hn : 1 ≤ min n op.buffer.length) :
    get_result t op .ok n = .ok "" ∧
    try_get_result t op .ok n = some (.ok "") := by
  have hz : bytesUntilNul (op.buffer.take (min n op.buffer.length))
      = some [] := by
    cases hbuf : op.buffer with
    | nil =>
      rw [hbuf] at hn
      simp at hn
    | cons b rest =>
      have hb0 : b = 0 := hb b (by rw [hbuf]; simp)
      obtain ⟨k, hk⟩ : ∃ k, min n (b :: rest).length = k + 1 := by
        rw [hbuf] at hn
        exact ⟨min n (b :: rest).length - 1, by omega⟩
      rw [hk, List.take_succ_cons]
      simp [bytesUntilNul, hb0]
  refine ⟨?_, ?_⟩
  · rw [get_result_ok_eq, hz]
    rfl
  · rw [try_get_result_ok_eq, hz]
    rfl

/-- C5 witness: an all-zero five-byte buffer with three bytes transferred. -/
theorem allzero_buffer_decodes_empty_witness :
    get_result gbkSample ⟨Overlapped.new, List.replicate 5 0, 0, 0⟩ .ok 3
        = .ok "" ∧
    try_get_result gbkSample ⟨Overlapped.new, List.replicate 5 0, 0, 0⟩ .ok 3
        = some (.ok "") :=
  allzero_buffer_decodes_empty gbkSample
    ⟨Overlapped.new, List.replicate 5 0, 0, 0⟩ 3 (by decide) (by decide)

/-- C6 counterexample: the claim states that creation fails, propagating a
system error, exactly when native event creation fails; but with_buffer_size
has no error path.  With CreateEventA failing (null handle 0) it still
returns an AsyncOperation recording the null handle unchecked, while the
claim-side contract with_buffer_size_claim reports an error at the same
input. -/
theorem with_buffer_size_event_failure_not_propagated :
    with_buffer_size_claim 256 0 1 = .error (.System 0) ∧
    with_buffer_size 256 0 1 =
      { overlapped := { dwStatus := 0, dwLength := 0, hEvent := 0, pData := 1 },
        buffer := List.replicate 256 0, bufferAddr := 1,
        event_handle := 0 } :=
  ⟨rfl, rfl⟩

/-- C6 (amended): creation never fails.  For every requested size and every
CreateEventA outcome — the null handle 0 of a failed event creation
included — with_buffer_size returns an operation holding a zeroed buffer of
the requested size and the unchecked event handle, with a control block
carrying status 0, byte count 0, the event handle, and the buffer address. -/
theorem with_buffer_size_total_behavior (size ev addr : Nat) :
    (with_buffer_size size ev addr).buffer = List.replicate size 0 ∧
    (with_buffer_size size ev addr).event_handle = ev ∧
    (with_buffer_size size ev addr).overlapped.hEvent = ev ∧
    (with_buffer_size size ev addr).overlapped.dwStatus = 0 ∧
    (with_buffer_size size ev addr).overlapped.dwLength = 0 ∧
    (with_buffer_size size ev addr).overlapped.pData = addr :=
  ⟨rfl, rfl, rfl, rfl, rfl, rfl⟩

/-- C7: for every buffer size ≥ 1, creating an operation and immediately
resetting it yields a buffer of the same size with every byte zero, a
control block in the not-started state with the data pointer re-bound to the
owned buffer's address and the event handle re-attached, and the same stored
completion-event handle as before the reset. -/
theorem create_then_reset_state (size ev addr : Nat) (_hsize : 1 ≤ size) :
    ((with_buffer_size size ev addr).reset).buffer.length = size ∧
    (∀ b ∈ ((with_buffer_size size ev addr).reset).buffer, b = 0) ∧
    ((with_buffer_size size ev addr).reset).overlapped =
      { Overlapped.new with hEvent := ev, pData := addr } ∧
    ((with_buffer_size size ev addr).reset).bufferAddr =
      (with_buffer_size size ev addr).bufferAddr ∧
    ((with_buffer_size size ev addr).reset).event_handle =
      (with_buffer_size size ev addr).event_handle := by
  refine ⟨?_, ?_, rfl, rfl, rfl⟩
  · simp [AsyncOperation.reset, with_buffer_size]
  · intro b hb
    simp [AsyncOperation.reset, with_buffer_size] at hb
    exact hb.2

/-- C7 witness: size four, event handle seven, buffer address three. -/
theorem create_then_reset_state_witness :
    ((with_buffer_size 4 7 3).reset).buffer.length = 4 ∧
    (∀ b ∈ ((with_buffer_size 4 7 3).reset).buffer, b = 0) ∧
    ((with_buffer_size 4 7 3).reset).overlapped =
      { Overlapped.new with hEvent := 7, pData := 3 } ∧
    ((with_buffer_size 4 7 3).reset).bufferAddr =
      (with_buffer_size 4 7 3).bufferAddr ∧
    ((with_buffer_size 4 7 3).reset).event_handle =
      (with_buffer_size 4 7 3).event_handle :=
  create_then_reset_state 4 7 3 (by decide)

/-- C8 counterexample: for a tag name holding an embedded terminator (its
GBK encoding contains a zero byte, so CString creation fails), tag_read
returns the TagNotFound error — not an InvalidParameter-kind error as the
claim states for every text argument. -/
theorem tag_read_unencodable_not_invalid_parameter :
    tag_read gbkSample "a\x00b" .ok [49, 0]
        = .error (.TagNotFound "a\x00b") ∧
    (CtApiError.TagNotFound "a\x00b").isInvalidParameter = false :=
  ⟨rfl, rfl⟩

/-- C8 (amended): a text argument whose GBK encoding holds an embedded
terminator byte is rejected before any native call is issued — the outcome
is the same for every native-layer behaviour and buffer content — but the
error kind differs by operation: cicode_async reports InvalidParameter for
the command, while tag_read and tag_write report TagNotFound for the tag
name. -/
theorem unencodable_argument_error_kinds (t : GbkTable)
    (cmd tag value : String) (native : NativeOutcome) (buffer : List Nat)
    (hcmd : encode_to_gbk_cstring t cmd = none)
    (htag : encode_to_gbk_cstring t tag = none) :
    cicode_async t cmd native = .error (.InvalidParameter "cmd" cmd) ∧
    tag_read t tag native buffer = .error (.TagNotFound tag) ∧
    tag_write t tag value native = .error (.TagNotFound tag) := by
  refine ⟨?_, ?_, ?_⟩ <;>
    simp [cicode_async, tag_read, tag_write, hcmd, htag]

/-- C8 witness: the tag and command a NUL b, a nonempty buffer, a
successful native layer. -/
theorem unencodable_argument_error_kinds_witness :
    cicode_async gbkSample "a\x00b" .ok
        = .error (.InvalidParameter "cmd" "a\x00b") ∧
    tag_read gbkSample "a\x00b" .ok [49, 0]
        = .error (.TagNotFound "a\x00b") ∧
    tag_write gbkSample "a\x00b" "1" .ok
        = .error (.TagNotFound "a\x00b") :=
  unencodable_argument_error_kinds gbkSample "a\x00b" "a\x00b" "1" .ok
    [49, 0] (by decide) (by decide)

/-- C9: with a well-formed GBK table, encoding and then decoding through the
code page restores every string all of whose characters are representable in
it; and a string with characters outside the code page (and no embedded
terminator) still encodes successfully — encode_to_gbk_cstring does not
fail — each unmappable character being lossily substituted by the bytes of
its decimal numeric character reference. -/
theorem gbk_roundtrip_and_lossy_encode (t : GbkTable) (hwf : t.WF)
    (s u : String)
    (hrep : ∀ c ∈ s.data, GbkRepresentable t c)
    (hnul : ∀ c ∈ u.data, c.toNat ≠ 0) :
    gbkDecode t (gbkEncode t s) = s ∧
    encode_to_gbk_cstring t u ≠ none ∧
    (∀ c ∈ u.data, ¬ GbkRepresentable t c →
      gbkEncodeChar t c = numericRefBytes c) := by
  refine ⟨?_, ?_, ?_⟩
  · unfold gbkDecode gbkEncode
    rw [gbkDecodeAux_encode_list t hwf hrep]
  · have hz : 0 ∉ gbkEncode t u := by
      unfold gbkEncode
      intro h0
      rw [List.mem_flatten] at h0
      obtain ⟨l, hl, h0l⟩ := h0
      rw [List.mem_map] at hl
      obtain ⟨c, hc, rfl⟩ := hl
      exact gbkEncodeChar_no_nul t hwf (hnul c hc) h0l
    unfold encode_to_gbk_cstring
    simp [hz]
  · intro c _ hnc
    have hna : ¬ c.toNat < 0x80 := fun hlt => hnc (Or.inl hlt)
    have hfind : t.entries.find? (fun x => x.ch == c) = none := by
      cases hf : t.entries.find? (fun x => x.ch == c) with
      | none => rfl
      | some e =>
        refine absurd (Or.inr ⟨e, List.mem_of_find?_eq_some hf, ?_⟩) hnc
        simpa using List.find?_some hf
    simp [gbkEncodeChar, hna, hfind]

/-- C9 witness: the sample table, the representable string A 啊, and the
unmappable NUL-free string é. -/
theorem gbk_roundtrip_and_lossy_encode_witness :
    gbkDecode gbkSample (gbkEncode gbkSample "A啊") = "A啊" ∧
    encode_to_gbk_cstring gbkSample "é" ≠ none ∧
    (∀ c ∈ "é".data, ¬ GbkRepresentable gbkSample c →
      gbkEncodeChar gbkSample c = numericRefBytes c) :=
  gbk_roundtrip_and_lossy_encode gbkSample (by decide) "A啊" "é"
    (by decide) (by decide)

/-- C10: when a synchronous read decodes an empty response — the buffer
region before the first terminator decodes to the empty string — tag_read,
tag_read_ex and the synchronous cicode all fail with the Other error "API
returned empty response" (code 0), while async retrieval over the very same
buffer returns the empty string as a success. -/
theorem sync_empty_response_rejected (t : GbkTable) (tag cmd : String)
    (buffer : List Nat)
    (htag : encode_to_gbk_cstring t tag ≠ none)
    (hcmd : encode_to_gbk_cstring t cmd ≠ none)
    (hbuf : extract_string_from_buffer t buffer = .ok "") :
    tag_read t tag .ok buffer
        = .error (.Other 0 "API returned empty response") ∧
    tag_read_ex t tag .ok buffer
        = .error (.Other 0 "API returned empty response") ∧
    cicode t cmd .ok buffer
        = .error (.Other 0 "API returned empty response") ∧
    get_result t ⟨Overlapped.new, buffer, 0, 0⟩ .ok buffer.length
        = .ok "" := by
  obtain ⟨e1, he1⟩ := Option.ne_none_iff_exists'.mp htag
  obtain ⟨e2, he2⟩ := Option.ne_none_iff_exists'.mp hcmd
  have hdec : decode_response_buffer t buffer
      = .error (.Other 0 "API returned empty response") := by
    unfold decode_response_buffer
    rw [hbuf]
    simp
  refine ⟨?_, ?_, ?_, ?_⟩
  · simp [tag_read, he1, hdec]
  · simp [tag_read_ex, he1, hdec]
  · simp [cicode, he2, hdec]
  · unfold extract_string_from_buffer at hbuf
    cases hbu : bytesUntilNul buffer with
    | none => rw [hbu] at hbuf; simp at hbuf
    | some bs =>
      rw [hbu] at hbuf
      simp only [Except.ok.injEq] at hbuf
      rw [get_result_ok_full, hbu]
      show Except.ok (gbkDecode t bs) = _
      rw [hbuf]

/-- C10 witness: an all-zero four-byte response buffer, tag T, command C. -/
theorem sync_empty_response_rejected_witness :
    tag_read gbkSample "T" .ok (List.replicate 4 0)
        = .error (.Other 0 "API returned empty response") ∧
    tag_read_ex gbkSample "T" .ok (List.replicate 4 0)
        = .error (.Other 0 "API returned empty response") ∧
    cicode gbkSample "C" .ok (List.replicate 4 0)
        = .error (.Other 0 "API returned empty response") ∧
    get_result gbkSample ⟨Overlapped.new, List.replicate 4 0, 0, 0⟩ .ok
        (List.replicate 4 0).length
        = .ok "" :=
  sync_empty_response_rejected gbkSample "T" "C" (List.replicate 4 0)
    (by decide) (by decide) (by decide)

end CtApi
